import Mathlib

/-!
A shallow embedding of the Vichaar backend (`src/api/index.py`): the identity
extraction used on bearer tokens, the student directory cache (SQLite-backed
upsert and search), and the HTTP endpoints that the claims reference.

Conventions of the embedding:
* Python strings are Lean `String`s; character-level operations from the source
  (`str.split`, `str.strip`, `str.replace`, SQLite `LIKE`) are implemented as
  structural recursions over `List Char` so that the kernel can evaluate them.
* The two calls into external libraries, `base64.urlsafe_b64decode` followed by
  `json.loads`, are modelled as one abstract `decode` function passed to each
  endpoint: the claims only constrain what happens once the decoded JSON object
  is given, so the endpoints are parameterized over that decoder.
* JSON scalar values are `JsonValue`; Python truthiness (`if student_id:`) is
  `JsonValue.truthy`.
* The SQLite tables are lists of records.  The source opens a fresh
  `sqlite3.connect(':memory:')` per request (connection lifecycle is declared
  out of scope by the spec as deployment wiring), so the embedding gives the
  relational semantics of the SQL statements over a persistent table state.
* `CURRENT_TIMESTAMP` is an explicit `Nat` argument `now`.
-/

/-- A JSON scalar value, as produced by `json.loads` for the fields that the
program inspects (`sub`, `Error`).  Numbers are modelled as integers. -/
inductive JsonValue where
  | jnull
  | jbool (b : Bool)
  | jnum (n : Int)
  | jstr (s : String)
deriving DecidableEq, Repr

/-- Python truthiness of a JSON value (`if student_id:` in the source):
`None`, `False`, `0` and `""` are falsy. -/
def JsonValue.truthy : JsonValue → Bool
  | .jnull => false
  | .jbool b => b
  | .jnum n => n != 0
  | .jstr s => s != ""

/-- Python `x == False` (used for `kmit_data.get('Error') == False`): in Python
both `False` and `0` compare equal to `False`. -/
def pyEqFalse : JsonValue → Bool
  | .jbool b => !b
  | .jnum n => n == 0
  | _ => false

/-- A decoded JSON object, as a key/value association list. -/
abbrev Payload := List (String × JsonValue)

/-- Python `dict.get k` on a decoded JSON object. -/
def pyGet (m : Payload) (k : String) : Option JsonValue :=
  (m.find? (fun p => p.1 == k)).map (fun p => p.2)

/-- Python `str.split(sep)` for a one-character separator, e.g.
`token.split('.')` and `auth_header.split(' ')`. -/
def splitOnChar (sep : Char) : List Char → List (List Char)
  | [] => [[]]
  | c :: rest =>
    let r := splitOnChar sep rest
    if c = sep then [] :: r
    else
      match r with
      | h :: t => (c :: h) :: t
      | [] => [[c]]

/-- Whitespace characters stripped by Python `str.strip()` (the ASCII ones;
the source only strips query strings). -/
def isSpaceChar (c : Char) : Bool :=
  c == ' ' || c == '\t' || c == '\n' || c == '\r' || c == '\x0b' || c == '\x0c'

/-- Drop leading whitespace. -/
def dropLeading : List Char → List Char
  | [] => []
  | c :: r => if isSpaceChar c then dropLeading r else c :: r

/-- Python `str.strip()`. -/
def pyStrip (s : List Char) : List Char :=
  ((dropLeading ((dropLeading s).reverse)).reverse)

/-- Python `auth_header.replace('Bearer ', '')`: removes every (left-to-right,
non-overlapping) occurrence of the seven characters `Bearer `. -/
def dropBearer : List Char → List Char
  | 'B' :: 'e' :: 'a' :: 'r' :: 'e' :: 'r' :: ' ' :: rest => dropBearer rest
  | c :: rest => c :: dropBearer rest
  | [] => []

/-- Case-sensitive list-of-characters prefix test. -/
def prefixCS : List Char → List Char → Bool
  | [], _ => true
  | _ :: _, [] => false
  | c :: cs, d :: ds => c == d && prefixCS cs ds

/-- ASCII lower-casing of one character, the folding SQLite's `LIKE` applies. -/
def asciiLower (c : Char) : Char :=
  if 'A' ≤ c ∧ c ≤ 'Z' then Char.ofNat (c.toNat + 32) else c

/-- Character equality up to ASCII case, as used by SQLite's `LIKE`. -/
def charEqCI (a b : Char) : Bool :=
  asciiLower a == asciiLower b

/-- ASCII-case-insensitive prefix test. -/
def prefixCI : List Char → List Char → Bool
  | [], _ => true
  | _ :: _, [] => false
  | c :: cs, d :: ds => charEqCI c d && prefixCI cs ds

/-- Case-sensitive substring containment, the matching semantics the spec
asserts for `search` (`contains the query as a case-sensitive substring`).
This definition follows the spec's words; it is compared against the
source-derived `LIKE` matcher below. -/
def substrCS (q s : List Char) : Bool :=
  s.tails.any (fun t => prefixCS q t)

/-- ASCII-case-insensitive substring containment. -/
def substrCI (q s : List Char) : Bool :=
  s.tails.any (fun t => prefixCI q t)

/-- SQLite `LIKE` pattern matching: `%` matches any sequence, `_` matches one
character, and literal characters compare ASCII-case-insensitively (SQLite's
default, `PRAGMA case_sensitive_like` is never set by the source). -/
def likeMatch : List Char → List Char → Bool
  | [], s => s.isEmpty
  | p :: ps, s =>
    if p = '%' then s.tails.any (fun t => likeMatch ps t)
    else
      match s with
      | [] => false
      | c :: s' => ((p == '_') || charEqCI p c) && likeMatch ps s'

/-- The pattern `f'%{query}%'` that `search_students` binds into its `LIKE`
comparisons: the query is spliced between two `%` wildcards verbatim, so
wildcard characters inside the query stay live. -/
def likePattern (q : List Char) : List Char :=
  '%' :: (q ++ ['%'])

/-- The base64url padding step of the source:
`payload += '=' * (4 - len(payload) % 4)` (note: a length divisible by 4 gets
four `=` appended; Python's decoder tolerates the extra padding). -/
def padB64 (s : String) : String :=
  s ++ String.mk (List.replicate (4 - s.length % 4) '=')

/-- Failure modes of subject extraction from a bearer token. -/
inductive ExtractError where
  | invalidTokenFormat
  | decodeFailure
  | missingSubjectClaim
deriving DecidableEq, Repr

/-- `extractSubject`: the JWT-payload extraction the source inlines in
`login`, `get_attendance` and (via `jwt.decode` with verification disabled)
`get_internal_results`: split the token on `.`, require exactly three
segments, right-pad and decode the middle segment as a JSON object, then take
the `sub` value, which the source accepts only when it is truthy
(`if student_id:`). `decode` abstracts `base64.urlsafe_b64decode` plus
`json.loads`. -/
def extractSubject (decode : String → Option Payload) (token : String) :
    Except ExtractError JsonValue :=
  match splitOnChar '.' token.data with
  | [_, payload, _] =>
    match decode (padB64 (String.mk payload)) with
    | none => .error .decodeFailure
    | some pd =>
      match pyGet pd "sub" with
      | some v => if v.truthy then .ok v else .error .missingSubjectClaim
      | none => .error .missingSubjectClaim
  | _ => .error .invalidTokenFormat

/-- A row of the `students` table (`init_db`): `name` and `hall_ticket` are the
columns declared `NOT NULL` (and `kmit_id`, `hall_ticket` are `UNIQUE`); every
other snapshot column is nullable.  `kmit_id` keeps the JSON value the
extracted `sub` claim had.  Timestamps are model time `Nat`s. -/
structure Row where
  kmit_id : JsonValue
  name : String
  hall_ticket : String
  roll_number : Option String
  branch : Option String
  year : Option Int
  semester : Option Int
  email : Option String
  phone : Option String
  branch_code : Option String
  course : Option String
  «section» : Option String
  admission_year : Option Int
  dob : Option String
  father_name : Option String
  father_mobile : Option String
  gender : Option String
  qr_key : Option String
  student_type : Option String
  status : Option String
  regulation : Option String
  last_updated : Nat
  created_at : Nat
deriving DecidableEq, Repr

/-- A nested provider object carrying `name` and `code` (the `branch` key). -/
structure BranchObj where
  name : Option String
  code : Option String
deriving DecidableEq, Repr

/-- A nested provider object carrying only `name` (`course`, `section`,
`regulation`). -/
structure NamedObj where
  name : Option String
deriving DecidableEq, Repr

/-- The `student` object of the upstream login body, with exactly the keys
`store_student_data` reads via `student.get(...)`; every one may be absent. -/
structure ProviderStudent where
  name : Option String
  htno : Option String
  rollno : Option String
  branch : Option BranchObj
  currentyear : Option Int
  currentsemester : Option Int
  student_email : Option String
  phone : Option String
  course : Option NamedObj
  «section» : Option NamedObj
  admissionyear : Option Int
  dob : Option String
  fathername : Option String
  fathermobile : Option String
  gender : Option String
  qr_key : Option String
  studenttype : Option String
  status : Option String
  regulation : Option NamedObj
deriving DecidableEq, Repr

/-- A provider student object with every key absent (`student_data.get('student', {})`
when the body has no `student` key). -/
def emptyStudent : ProviderStudent :=
  ⟨none, none, none, none, none, none, none, none, none, none, none, none,
   none, none, none, none, none, none, none⟩

/-- The upstream login body as `login` reads it: the `Error` key, the
`access_token` key and the `student` object. -/
structure KmitData where
  errorField : Option JsonValue
  access_token : Option String
  student : Option ProviderStudent
deriving DecidableEq, Repr

/-- The flat `students` row `store_student_data` builds from a provider
payload: nested objects contribute their `name`/`code` when present and an
explicit no-value (`None`/SQL `NULL`) otherwise. -/
def mappedRow (st : ProviderStudent) (k : JsonValue) (nm ht : String)
    (lu ca : Nat) : Row :=
  { kmit_id := k
    name := nm
    hall_ticket := ht
    roll_number := st.rollno
    branch := st.branch.bind (fun b => b.name)
    year := st.currentyear
    semester := st.currentsemester
    email := st.student_email
    phone := st.phone
    branch_code := st.branch.bind (fun b => b.code)
    course := st.course.bind (fun c => c.name)
    «section» := st.«section».bind (fun s => s.name)
    admission_year := st.admissionyear
    dob := st.dob
    father_name := st.fathername
    father_mobile := st.fathermobile
    gender := st.gender
    qr_key := st.qr_key
    student_type := st.studenttype
    status := st.status
    regulation := st.regulation.bind (fun r => r.name)
    last_updated := lu
    created_at := ca }

/-- One attempted execution of `store_student_data`'s SQL against the
`students` table: `none` models the `sqlite3` exception the broad
`except` swallows.  The `UPDATE` branch runs when a row with the given
`kmit_id` exists, the `INSERT` branch otherwise; both enforce the schema's
`NOT NULL` on `name`/`hall_ticket` and `UNIQUE` on `hall_ticket`
(`kmit_id` uniqueness is enforced by the existence check itself).
An update keeps `created_at` and refreshes `last_updated`; an insert sets
both to `now` (the columns' `DEFAULT CURRENT_TIMESTAMP`). -/
def store_attempt (db : List Row) (student_data : KmitData) (kmit_id : JsonValue)
    (now : Nat) : Option (List Row) :=
  let st := student_data.student.getD emptyStudent
  match db.find? (fun r => r.kmit_id == kmit_id) with
  | some _ =>
    match st.name, st.htno with
    | some nm, some ht =>
      if db.any (fun r => r.kmit_id != kmit_id && r.hall_ticket == ht) then none
      else
        some (db.map (fun r =>
          if r.kmit_id == kmit_id then mappedRow st r.kmit_id nm ht now r.created_at
          else r))
    | _, _ => none
  | none =>
    match st.name, st.htno with
    | some nm, some ht =>
      if db.any (fun r => r.hall_ticket == ht) then none
      else some (db ++ [mappedRow st kmit_id nm ht now now])
    | _, _ => none

/-- `store_student_data`: the persistence attempt with its failure swallowed
(`except Exception: ... # Don't fail the login if database storage fails`). -/
def store_student_data (db : List Row) (student_data : KmitData)
    (kmit_id : JsonValue) (now : Nat) : List Row :=
  (store_attempt db student_data kmit_id now).getD db

/-- The filter of `search_students`' SELECT:
`name LIKE ? OR hall_ticket LIKE ? OR roll_number LIKE ?` with `%query%`
bound to each; a SQL `NULL` column never matches. -/
def rowMatches (q : List Char) (r : Row) : Bool :=
  likeMatch (likePattern q) r.name.data
    || likeMatch (likePattern q) r.hall_ticket.data
    || (match r.roll_number with
        | some rn => likeMatch (likePattern q) rn.data
        | none => false)

/-- The ORDER BY rank of `search_students`:
`CASE WHEN hall_ticket = ? THEN 1 WHEN name LIKE ? THEN 2 ELSE 3 END`
(SQLite `=` on text is case-sensitive, `LIKE` is not). -/
def searchRank (q : List Char) (r : Row) : Nat :=
  if r.hall_ticket.data == q then 1
  else if likeMatch (likePattern q) r.name.data then 2
  else 3

/-- SQLite `BINARY` text ordering (memcmp on UTF-8, equivalently lexicographic
on code points), used by `ORDER BY ... name ASC`. -/
def charListLe : List Char → List Char → Bool
  | [], _ => true
  | _ :: _, [] => false
  | a :: as, b :: bs => a < b || (a == b && charListLe as bs)

/-- The full ORDER BY comparator: rank first, then `name ASC`. -/
def searchLe (q : List Char) (a b : Row) : Bool :=
  decide (searchRank q a < searchRank q b)
    || ((searchRank q a == searchRank q b) && charListLe a.name.data b.name.data)

/-- The ORDER BY comparator as a relation for `List.insertionSort`. -/
def searchR (q : List Char) : Row → Row → Prop :=
  fun a b => searchLe q a b = true

instance (q : List Char) : DecidableRel (searchR q) :=
  fun a b => instDecidableEqBool (searchLe q a b) true

/-- The record list of `search_students`' SELECT: filter, sort by the ORDER BY
comparator (SQLite leaves tie order unspecified; the embedding fixes the
stable insertion sort, one comparator-consistent outcome), `LIMIT 20`. -/
def searchRecords (db : List Row) (q : List Char) : List Row :=
  (List.insertionSort (searchR q) (db.filter (rowMatches q))).take 20

/-- A row of the `search_history` table. -/
structure LogEntry where
  searcher_ip : String
  search_term : String
  search_type : String
  results_count : Nat
deriving DecidableEq, Repr

/-- The JSON body and status `search_students` answers with. -/
structure SearchOutcome where
  status : Nat
  success : Bool
  students : List Row
  total_results : Nat
  error : Option String
deriving DecidableEq, Repr

/-- `search_students`: strip the query, reject an empty one with 400, run the
SELECT, classify the search type (`name` when some returned row's lowered name
contains the lowered query, else `hall_ticket`), then append one
`search_history` row.  The history INSERT sits inside the endpoint's one big
`try`, so `logInsertFails` (the INSERT raising) lands in the generic handler:
a 500 `Search failed` body and no history row. -/
def search_students (db : List Row) (ip : String) (rawQ : String)
    (logInsertFails : Bool) (log : List LogEntry) :
    SearchOutcome × List LogEntry :=
  let q := pyStrip rawQ.data
  if q.isEmpty then
    ({ status := 400, success := false, students := [], total_results := 0,
       error := some "Search query is required" }, log)
  else
    let students := searchRecords db q
    let stype :=
      if students.any (fun r => substrCI q r.name.data) then "name"
      else "hall_ticket"
    if logInsertFails then
      ({ status := 500, success := false, students := [], total_results := 0,
         error := some "Search failed" }, log)
    else
      ({ status := 200, success := true, students := students,
         total_results := students.length, error := none },
       log ++ [{ searcher_ip := ip, search_term := String.mk q,
                 search_type := stype, results_count := students.length }])

/-- The `error` strings of the JSON error bodies.  Messages the source builds
by interpolating `str(e)` of a caught exception or an upstream body are kept
as tagged constructors, since the exception text is external input. -/
inductive ErrMsg where
  | msg (s : String)
  | serverErrorFmt
  | searchFailedFmt
  | networkErrorFmt
  | upstreamErrFmt (code : Nat)
  | failedFetchFmt (code : Nat)
  | kmitApiErrFmt (code : Nat)
deriving DecidableEq, Repr

/-- The observable part of an endpoint's JSON reply: HTTP status, the value of
the body's `success` key when the body has one, the error message, and whether
a relayed `data` payload is present. -/
structure EndpointResult where
  status : Nat
  success : Option Bool
  error : Option ErrMsg
  dataPresent : Bool
deriving DecidableEq, Repr

/-- Outcome of the one outbound `requests` call an endpoint makes: a reply
with a status and a body (`none` models `response.json()` raising), a
`requests.exceptions.Timeout`, or another `requests.exceptions.RequestException`. -/
inductive UpstreamResult (β : Type) where
  | resp (status : Nat) (body : Option β)
  | timeout
  | netError
deriving DecidableEq, Repr

/-- `POST /api/login`: relay the credentials, and on the upstream's 201 with a
JSON body, when `kmit_data.get('Error') == False` and an `access_token` key is
present, decode the token's `sub` and best-effort upsert the cache; the reply
is the success body whether or not extraction or storage succeeded.  A
non-201 status maps to 400, a `Timeout` to 408, other transport errors to
500.  Returns the reply and the new `students` table. -/
def login (db : List Row) (decode : String → Option Payload)
    (up : UpstreamResult KmitData) (now : Nat) : EndpointResult × List Row :=
  match up with
  | .timeout =>
    ({ status := 408, success := some false,
       error := some (.msg "Request timeout - KMIT API is taking too long to respond"),
       dataPresent := false }, db)
  | .netError =>
    ({ status := 500, success := some false, error := some .networkErrorFmt,
       dataPresent := false }, db)
  | .resp st body =>
    if st = 201 then
      match body with
      | none =>
        ({ status := 400, success := some false,
           error := some (.msg "Invalid JSON response from KMIT API"),
           dataPresent := false }, db)
      | some kd =>
        let db' :=
          match kd.errorField, kd.access_token with
          | some ev, some tok =>
            if pyEqFalse ev then
              match extractSubject decode tok with
              | .ok sub => store_student_data db kd sub now
              | .error _ => db
            else db
          | _, _ => db
        ({ status := 200, success := some true, error := none,
           dataPresent := true }, db')
    else
      ({ status := 400, success := some false,
         error := some (.upstreamErrFmt st), dataPresent := false }, db)

/-- `GET /api/attendance`: 401 only when the `Authorization` header is absent;
then `auth_header.replace('Bearer ', '').split('.')` must give three segments
(else 400 `Invalid token format`) and the middle segment must decode (else
400 `Invalid token`); the extracted `sub` is not required to exist.  The
endpoint has no `Timeout` handler: any `requests` exception falls into the
generic `except Exception` and yields 500 `Server error: ...`. -/
def get_attendance (auth : Option String) (decode : String → Option Payload)
    (up : UpstreamResult JsonValue) : EndpointResult :=
  match auth with
  | none =>
    { status := 401, success := some false,
      error := some (.msg "No authorization token"), dataPresent := false }
  | some h =>
    match splitOnChar '.' (dropBearer h.data) with
    | [_, payload, _] =>
      match decode (padB64 (String.mk payload)) with
      | none =>
        { status := 400, success := some false,
          error := some (.msg "Invalid token"), dataPresent := false }
      | some _ =>
        match up with
        | .timeout =>
          { status := 500, success := some false, error := some .serverErrorFmt,
            dataPresent := false }
        | .netError =>
          { status := 500, success := some false, error := some .serverErrorFmt,
            dataPresent := false }
        | .resp st body =>
          if st = 200 then
            match body with
            | some _ =>
              { status := 200, success := some true, error := none,
                dataPresent := true }
            | none =>
              { status := 400, success := some false,
                error := some (.msg "Invalid JSON response from KMIT API"),
                dataPresent := false }
          else
            { status := 400, success := some false,
              error := some (.failedFetchFmt st), dataPresent := false }
    | _ =>
      { status := 400, success := some false,
        error := some (.msg "Invalid token format"), dataPresent := false }

/-- The token part of an `Authorization` header: `auth_header.split(' ')[1]`
(well-defined whenever the header starts with `Bearer `). -/
def bearerToken (h : String) : String :=
  String.mk ((splitOnChar ' ' h.data).getD 1 [])

/-- `GET /api/internal-results`: 401 when the header is absent or lacks the
`Bearer ` scheme; the token after the first space is decoded by `jwt.decode`
with signature verification disabled (modelled by `extractSubject`: any decode
failure is 401 `Invalid token`, a missing or falsy `sub` is 401
`Invalid token: no student ID`).  A `Timeout` maps to 504, other transport
errors to 500; a non-200 upstream status is relayed as the reply status. -/
def get_internal_results (auth : Option String)
    (decode : String → Option Payload) (up : UpstreamResult JsonValue) :
    EndpointResult :=
  match auth with
  | none =>
    { status := 401, success := none,
      error := some (.msg "Authorization header required"), dataPresent := false }
  | some h =>
    if prefixCS "Bearer ".data h.data then
      match extractSubject decode (bearerToken h) with
      | .error .missingSubjectClaim =>
        { status := 401, success := none,
          error := some (.msg "Invalid token: no student ID"), dataPresent := false }
      | .error _ =>
        { status := 401, success := none, error := some (.msg "Invalid token"),
          dataPresent := false }
      | .ok _ =>
        match up with
        | .timeout =>
          { status := 504, success := none,
            error := some (.msg "Request timeout"), dataPresent := false }
        | .netError =>
          { status := 500, success := none,
            error := some (.msg "Internal server error"), dataPresent := false }
        | .resp st body =>
          if st = 200 then
            match body with
            | some _ =>
              { status := 200, success := some true, error := none,
                dataPresent := true }
            | none =>
              { status := 500, success := none,
                error := some (.msg "Internal server error"), dataPresent := false }
          else
            { status := st, success := some false,
              error := some (.kmitApiErrFmt st), dataPresent := false }
    else
      { status := 401, success := none,
        error := some (.msg "Authorization header required"), dataPresent := false }

/-- The fixed upstream base URL. -/
def KMIT_API_BASE : String := "https://kmit-api.teleuniv.in"

/-- The upstream URL `get_student_profile_direct` builds: it interpolates only
the caller-chosen path parameter. -/
def profileUrl (student_id : String) : String :=
  KMIT_API_BASE ++ "/studentmaster/studentprofile/" ++ student_id

/-- The URL of the outbound request `GET /api/student-profile/{id}` performs:
`none` when no upstream call happens (missing header → 401).  The bearer token
is forwarded in headers but never decoded or compared with the path
parameter. -/
def profileRequestedUrl (auth : Option String) (student_id : String) :
    Option String :=
  match auth with
  | none => none
  | some _ => some (profileUrl student_id)

/-- `GET /api/student-profile/{id}`: 401 without a header; otherwise one
outbound request to `profileUrl student_id` whose body is relayed on 200,
any other status mapping to 400.  `upstreamAt` gives the upstream's outcome
per requested URL; the bearer token is forwarded but never interpreted. -/
def get_student_profile_direct (auth : Option String) (student_id : String)
    (upstreamAt : String → UpstreamResult JsonValue) : EndpointResult :=
  match auth with
  | none =>
    { status := 401, success := some false,
      error := some (.msg "No authorization token"), dataPresent := false }
  | some _ =>
    match upstreamAt (profileUrl student_id) with
    | .timeout =>
      { status := 500, success := some false, error := some .serverErrorFmt,
        dataPresent := false }
    | .netError =>
      { status := 500, success := some false, error := some .serverErrorFmt,
        dataPresent := false }
    | .resp st body =>
      if st = 200 then
        match body with
        | some _ =>
          { status := 200, success := some true, error := none,
            dataPresent := true }
        | none =>
          { status := 500, success := some false, error := some .serverErrorFmt,
            dataPresent := false }
      else
        { status := 400, success := some false,
          error := some (.failedFetchFmt st), dataPresent := false }

/-- Queries containing no SQLite `LIKE` wildcard character. -/
def noWild (q : List Char) : Bool :=
  q.all (fun c => c != '%' && c != '_')

/-- The spec's matching predicate for `search`, following its words: the
record's `name`, `hallTicket` or `rollNumber` `contains the query as a
case-sensitive substring`.  Compared against the source-derived
`rowMatches`. -/
def rowMatchesCS (q : List Char) (r : Row) : Bool :=
  substrCS q r.name.data || substrCS q r.hall_ticket.data
    || (match r.roll_number with
        | some rn => substrCS q rn.data
        | none => false)

/-- ASCII-case-insensitive substring matching over the three searched columns:
what the source's `LIKE` filter amounts to for wildcard-free queries. -/
def rowMatchesCI (q : List Char) (r : Row) : Bool :=
  substrCI q r.name.data || substrCI q r.hall_ticket.data
    || (match r.roll_number with
        | some rn => substrCI q rn.data
        | none => false)

/-- The `students` table invariant of §3: at most one record per upstream id. -/
def atMostOnePerId (db : List Row) : Prop :=
  db.Pairwise (fun a b => a.kmit_id ≠ b.kmit_id)

/-- A `students` row with only the `NOT NULL` columns populated. -/
def mkRow (k : JsonValue) (nm ht : String) (roll : Option String) : Row :=
  { kmit_id := k, name := nm, hall_ticket := ht, roll_number := roll,
    branch := none, year := none, semester := none, email := none,
    phone := none, branch_code := none, course := none, «section» := none,
    admission_year := none, dob := none, father_name := none,
    father_mobile := none, gender := none, qr_key := none,
    student_type := none, status := none, regulation := none,
    last_updated := 0, created_at := 0 }

/-- A cached student named `A` with hall ticket `HT1`. -/
def rowA : Row := mkRow (.jnum 1) "A" "HT1" none

/-- A provider student carrying only `name` and `htno`. -/
def studentNmHt : ProviderStudent :=
  { emptyStudent with name := some "A", htno := some "HT1" }

/-- A decoder mapping the padded middle segment `p48==` to a payload whose
`sub` is `4821` (the spec's scenario value). -/
def decode48 : String → Option Payload :=
  fun s => if s = "p48=" then some [("sub", .jnum 4821)] else none

/-- A decoder mapping the padded middle segment `p0==` to a payload whose
`sub` is the falsy number `0`. -/
def decodeZero : String → Option Payload :=
  fun s => if s = "p0==" then some [("sub", .jnum 0)] else none

/-- An upstream login body with an `access_token` and a full-enough `student`
object but no `Error` key. -/
def kdNoErrorField : KmitData :=
  { errorField := none, access_token := some "h.p48.s", student := some studentNmHt }

/-- An upstream login body passing the `Error == False` check. -/
def kdGood : KmitData :=
  { errorField := some (.jbool false), access_token := some "h.p48.s",
    student := some studentNmHt }

/-- An upstream login body with no `student` object at all. -/
def kdNoStudent : KmitData :=
  { errorField := some (.jbool false), access_token := some "h.p48.s",
    student := none }

/-- An upstream login body whose `student` object is present but empty. -/
def kdEmptyStudent : KmitData :=
  { errorField := some (.jbool false), access_token := some "h.p48.s",
    student := some emptyStudent }

deriving instance DecidableEq for Except

/-! ### Helper lemmas -/

theorem tails_any_isEmpty (s : List Char) :
    s.tails.any (fun t => t.isEmpty) = true := by
  induction s with
  | nil => rfl
  | cons c cs ih => simp [List.tails_cons, ih]

theorem likeMatch_pct_nil (t : List Char) : likeMatch ['%'] t = true := by
  simp [likeMatch, tails_any_isEmpty t]

theorem likeMatch_append_pct (q : List Char) (hw : noWild q = true) :
    ∀ t, likeMatch (q ++ ['%']) t = prefixCI q t := by
  induction q with
  | nil =>
    intro t
    simpa [prefixCI] using likeMatch_pct_nil t
  | cons c cs ih =>
    have hw' := hw
    simp only [noWild, List.all_cons, Bool.and_eq_true] at hw'
    have hcp : ¬ (c = '%') := by simpa using hw'.1.1
    have hcu : (c == '_') = false := by simpa [bne] using hw'.1.2
    have hcs : noWild cs = true := by simpa [noWild] using hw'.2
    intro t
    cases t with
    | nil => simp [likeMatch, prefixCI, hcp]
    | cons d ds =>
      simp [likeMatch, prefixCI, hcp, hcu, ih hcs ds]

theorem likeMatch_likePattern (q : List Char) (hw : noWild q = true)
    (s : List Char) : likeMatch (likePattern q) s = substrCI q s := by
  have hfun : (fun t => likeMatch (q ++ ['%']) t) = fun t => prefixCI q t :=
    funext (likeMatch_append_pct q hw)
  simp [likePattern, likeMatch, substrCI, hfun]

theorem charListLe_total : ∀ a b : List Char,
    charListLe a b = true ∨ charListLe b a = true
  | [], _ => Or.inl rfl
  | _ :: _, [] => Or.inr rfl
  | x :: xs, y :: ys => by
    rcases lt_trichotomy x y with h | h | h
    · left; simp [charListLe, h]
    · subst h
      rcases charListLe_total xs ys with ih | ih
      · left; simp [charListLe, ih]
      · right; simp [charListLe, ih]
    · right; simp [charListLe, h]

theorem charListLe_trans : ∀ a b c : List Char,
    charListLe a b = true → charListLe b c = true → charListLe a c = true
  | [], _, _, _, _ => rfl
  | x :: xs, [], _, h, _ => by simp [charListLe] at h
  | x :: xs, y :: ys, [], _, h => by simp [charListLe] at h
  | x :: xs, y :: ys, z :: zs, h1, h2 => by
    simp only [charListLe, Bool.or_eq_true, Bool.and_eq_true,
      decide_eq_true_eq, beq_iff_eq] at h1 h2 ⊢
    rcases h1 with h1 | ⟨rfl, h1⟩
    · rcases h2 with h2 | ⟨rfl, h2⟩
      · exact Or.inl (lt_trans h1 h2)
      · exact Or.inl h1
    · rcases h2 with h2 | ⟨rfl, h2⟩
      · exact Or.inl h2
      · exact Or.inr ⟨rfl, charListLe_trans xs ys zs h1 h2⟩

theorem searchLe_total (q : List Char) (a b : Row) :
    searchLe q a b = true ∨ searchLe q b a = true := by
  simp only [searchLe, Bool.or_eq_true, Bool.and_eq_true,
    decide_eq_true_eq, beq_iff_eq]
  rcases lt_trichotomy (searchRank q a) (searchRank q b) with h | h | h
  · exact Or.inl (Or.inl h)
  · rcases charListLe_total a.name.data b.name.data with hn | hn
    · exact Or.inl (Or.inr ⟨h, hn⟩)
    · exact Or.inr (Or.inr ⟨h.symm, hn⟩)
  · exact Or.inr (Or.inl h)

theorem searchLe_trans (q : List Char) (a b c : Row) :
    searchLe q a b = true → searchLe q b c = true → searchLe q a c = true := by
  intro h1 h2
  simp only [searchLe, Bool.or_eq_true, Bool.and_eq_true,
    decide_eq_true_eq, beq_iff_eq] at h1 h2 ⊢
  rcases h1 with h1 | ⟨e1, h1⟩
  · rcases h2 with h2 | ⟨e2, h2⟩
    · exact Or.inl (lt_trans h1 h2)
    · exact Or.inl (e2 ▸ h1)
  · rcases h2 with h2 | ⟨e2, h2⟩
    · exact Or.inl (e1 ▸ h2)
    · exact Or.inr ⟨e1.trans e2, charListLe_trans _ _ _ h1 h2⟩

theorem searchRank_pos (q : List Char) (r : Row) : 1 ≤ searchRank q r := by
  unfold searchRank
  split
  · exact le_refl 1
  · split
    · omega
    · omega

theorem searchRank_eq_one_iff (q : List Char) (r : Row) :
    searchRank q r = 1 ↔ r.hall_ticket.data = q := by
  unfold searchRank
  by_cases h : (r.hall_ticket.data == q) = true
  · simp [h, beq_iff_eq.mp h]
  · rw [if_neg (by simpa using h)]
    constructor
    · intro h1
      split at h1 <;> omega
    · intro he
      exact absurd he (by simpa using h)

theorem sorted_searchRecords (db : List Row) (q : List Char) :
    (searchRecords db q).Pairwise (searchR q) := by
  haveI : IsTotal Row (searchR q) := ⟨fun a b => searchLe_total q a b⟩
  haveI : IsTrans Row (searchR q) := ⟨fun a b c => searchLe_trans q a b c⟩
  have hs : (List.insertionSort (searchR q) (db.filter (rowMatches q))).Pairwise (searchR q) :=
    List.sorted_insertionSort (searchR q) (db.filter (rowMatches q))
  exact List.Pairwise.sublist (List.take_sublist 20 _) hs

theorem length_searchRecords_le (db : List Row) (q : List Char) :
    (searchRecords db q).length ≤ 20 := by
  simp [searchRecords, List.length_take_le]

theorem mem_searchRecords (db : List Row) (q : List Char) (r : Row)
    (h : r ∈ searchRecords db q) : r ∈ db ∧ rowMatches q r = true := by
  have h1 : r ∈ List.insertionSort (searchR q) (db.filter (rowMatches q)) :=
    List.mem_of_mem_take h
  have h2 : r ∈ db.filter (rowMatches q) :=
    (List.mem_insertionSort (searchR q)).mp h1
  exact ⟨(List.mem_filter.mp h2).1, (List.mem_filter.mp h2).2⟩

theorem searchRecords_mem (db : List Row) (q : List Char) (r : Row)
    (hr : r ∈ db) (hm : rowMatches q r = true)
    (hlen : (db.filter (rowMatches q)).length ≤ 20) :
    r ∈ searchRecords db q := by
  have hperm := List.perm_insertionSort (searchR q) (db.filter (rowMatches q))
  have hl : (List.insertionSort (searchR q) (db.filter (rowMatches q))).length ≤ 20 := by
    rw [hperm.length_eq]; exact hlen
  unfold searchRecords
  rw [List.take_of_length_le hl]
  exact (List.mem_insertionSort (searchR q)).mpr (List.mem_filter.mpr ⟨hr, hm⟩)

theorem rowMatches_eq_CI (q : List Char) (hw : noWild q = true) (r : Row) :
    rowMatches q r = rowMatchesCI q r := by
  unfold rowMatches rowMatchesCI
  cases r.roll_number <;> simp [likeMatch_likePattern q hw]

theorem isEmpty_false_of_ne_nil {s : List Char} (h : s ≠ []) :
    s.isEmpty = false := by
  cases s with
  | nil => exact absurd rfl h
  | cons c cs => rfl

theorem search_students_students (db : List Row) (ip rawQ : String)
    (log : List LogEntry) (h : pyStrip rawQ.data ≠ []) :
    (search_students db ip rawQ false log).1.students
      = searchRecords db (pyStrip rawQ.data) := by
  unfold search_students
  simp [isEmpty_false_of_ne_nil h]

theorem mappedRow_kmit_id (st : ProviderStudent) (k : JsonValue)
    (nm ht : String) (lu ca : Nat) : (mappedRow st k nm ht lu ca).kmit_id = k :=
  rfl

theorem store_preserves_atMostOne (db : List Row) (kd : KmitData)
    (k : JsonValue) (t : Nat) (h : atMostOnePerId db) :
    atMostOnePerId (store_student_data db kd k t) := by
  unfold store_student_data store_attempt
  cases hf : db.find? (fun r => r.kmit_id == k) with
  | some r0 =>
    cases hnm : (kd.student.getD emptyStudent).name with
    | none => simpa [hf, hnm] using h
    | some nm =>
      cases hht : (kd.student.getD emptyStudent).htno with
      | none => simpa [hf, hnm, hht] using h
      | some ht =>
        by_cases hany : db.any (fun r => r.kmit_id != k && r.hall_ticket == ht) = true
        · simpa [hf, hnm, hht, hany] using h
        · rw [Bool.not_eq_true] at hany
          simp only [hf, hnm, hht, hany, Bool.false_eq_true, if_false,
            Option.getD_some]
          unfold atMostOnePerId at h ⊢
          rw [List.pairwise_map]
          have hkeep : ∀ r : Row,
              (if r.kmit_id == k
               then mappedRow (kd.student.getD emptyStudent) r.kmit_id nm ht t r.created_at
               else r).kmit_id = r.kmit_id := by
            intro r
            split <;> rfl
          refine h.imp ?_
          intro a b hab
          rw [hkeep, hkeep]
          exact hab
  | none =>
    cases hnm : (kd.student.getD emptyStudent).name with
    | none => simpa [hf, hnm] using h
    | some nm =>
      cases hht : (kd.student.getD emptyStudent).htno with
      | none => simpa [hf, hnm, hht] using h
      | some ht =>
        by_cases hany : db.any (fun r => r.hall_ticket == ht) = true
        · simpa [hf, hnm, hht, hany] using h
        · rw [Bool.not_eq_true] at hany
          simp only [hf, hnm, hht, hany, Bool.false_eq_true, if_false,
            Option.getD_some]
          unfold atMostOnePerId at h ⊢
          rw [List.pairwise_append]
          refine ⟨h, by simp, ?_⟩
          intro a ha b hb
          have hb' : b = mappedRow (kd.student.getD emptyStudent) k nm ht t t := by
            simpa using hb
          have hfa := List.find?_eq_none.mp hf a ha
          rw [hb', mappedRow_kmit_id]
          intro hak
          exact hfa (by simp [hak])

/-! ### Claim theorems -/

/-- C1 counterexample: a 3-segment token whose decoded payload contains the
field `sub` with the (falsy) value `0`.  The claim demands that extraction
return that value; the source's `if student_id:` truthiness test sends it to
the missing-subject branch instead. -/
theorem C1_counterexample :
    splitOnChar '.' "h.p0.s".data = ["h".data, "p0".data, "s".data]
  ∧ decodeZero (padB64 (String.mk "p0".data)) = some [("sub", JsonValue.jnum 0)]
  ∧ pyGet [("sub", JsonValue.jnum 0)] "sub" = some (JsonValue.jnum 0)
  ∧ extractSubject decodeZero "h.p0.s" = .error .missingSubjectClaim
  ∧ extractSubject decodeZero "h.p0.s" ≠ .ok (JsonValue.jnum 0) :=
  ⟨by decide, by decide, by decide, by decide, by decide⟩

/-- C1 amended: for 3-segment tokens whose payload decodes, extraction returns
the `sub` value when that value is truthy; a missing or falsy `sub` fails
with `MissingSubjectClaim`; a segment count other than 3 fails with
`InvalidTokenFormat`. -/
theorem C1_amended :
    (∀ (decode : String → Option Payload) (token : String)
       (a b c : List Char) (pd : Payload) (v : JsonValue),
        splitOnChar '.' token.data = [a, b, c] →
        decode (padB64 (String.mk b)) = some pd →
        pyGet pd "sub" = some v → v.truthy = true →
        extractSubject decode token = .ok v)
  ∧ (∀ (decode : String → Option Payload) (token : String)
       (a b c : List Char) (pd : Payload),
        splitOnChar '.' token.data = [a, b, c] →
        decode (padB64 (String.mk b)) = some pd →
        (pyGet pd "sub" = none ∨ ∃ v, pyGet pd "sub" = some v ∧ v.truthy = false) →
        extractSubject decode token = .error .missingSubjectClaim)
  ∧ (∀ (decode : String → Option Payload) (token : String),
        (splitOnChar '.' token.data).length ≠ 3 →
        extractSubject decode token = .error .invalidTokenFormat) := by
  refine ⟨?_, ?_, ?_⟩
  · intro decode token a b c pd v hs hd hg ht
    simp [extractSubject, hs, hd, hg, ht]
  · intro decode token a b c pd hs hd hg
    rcases hg with hg | ⟨v, hg, hv⟩
    · simp [extractSubject, hs, hd, hg]
    · simp [extractSubject, hs, hd, hg, hv]
  · intro decode token h
    rcases hp : splitOnChar '.' token.data with _ | ⟨a, _ | ⟨b, _ | ⟨c, _ | ⟨d, rest⟩⟩⟩⟩
    · simp [extractSubject, hp]
    · simp [extractSubject, hp]
    · simp [extractSubject, hp]
    · simp [hp] at h
    · simp [extractSubject, hp]

/-- C1 witness: the three amended branches at concrete tokens. -/
theorem C1_amended_witness :
    extractSubject decode48 "h.p48.s" = .ok (JsonValue.jnum 4821)
  ∧ extractSubject (fun _ => some []) "h.p48.s" = .error .missingSubjectClaim
  ∧ extractSubject decodeZero "x" = .error .invalidTokenFormat := by
  refine ⟨?_, ?_, ?_⟩
  · exact C1_amended.1 decode48 "h.p48.s" "h".data "p48".data "s".data
      [("sub", JsonValue.jnum 4821)] (JsonValue.jnum 4821)
      (by decide) (by decide) (by decide) (by decide)
  · exact C1_amended.2.1 (fun _ => some []) "h.p48.s" "h".data "p48".data "s".data []
      (by decide) rfl (Or.inl (by decide))
  · exact C1_amended.2.2 decodeZero "x" (by decide)

/-- C7 counterexample: `get_attendance` with a well-formed token (the same
request succeeds when the upstream answers) maps an upstream timeout to 500,
not 408/504: the endpoint has no `Timeout` handler, only the generic
`except Exception`. -/
theorem C7_counterexample :
    (get_attendance (some "Bearer h.p48.s") decode48 .timeout).status = 500
  ∧ ¬ ((get_attendance (some "Bearer h.p48.s") decode48 .timeout).status = 408
       ∨ (get_attendance (some "Bearer h.p48.s") decode48 .timeout).status = 504)
  ∧ (get_attendance (some "Bearer h.p48.s") decode48 (.resp 200 (some .jnull))).status = 200 :=
  ⟨by decide, by decide, by decide⟩

/-- C7 amended: on an upstream timeout, `login` answers 408 and
`get_internal_results` 504, each with its timeout-specific message and no
data; `get_attendance` instead answers 500 with the generic
`Server error: ...` body. -/
theorem C7_amended :
    (∀ (db : List Row) (decode : String → Option Payload) (now : Nat),
        (login db decode .timeout now).1
          = { status := 408, success := some false,
              error := some (.msg "Request timeout - KMIT API is taking too long to respond"),
              dataPresent := false }
      ∧ (login db decode .timeout now).2 = db)
  ∧ (∀ (h : String) (decode : String → Option Payload) (v : JsonValue),
        prefixCS "Bearer ".data h.data = true →
        extractSubject decode (bearerToken h) = .ok v →
        get_internal_results (some h) decode .timeout
          = { status := 504, success := none,
              error := some (.msg "Request timeout"), dataPresent := false })
  ∧ (∀ (h : String) (decode : String → Option Payload) (a b c : List Char)
       (pd : Payload),
        splitOnChar '.' (dropBearer h.data) = [a, b, c] →
        decode (padB64 (String.mk b)) = some pd →
        get_attendance (some h) decode .timeout
          = { status := 500, success := some false,
              error := some .serverErrorFmt, dataPresent := false }) := by
  refine ⟨?_, ?_, ?_⟩
  · intro db decode now
    exact ⟨rfl, rfl⟩
  · intro h decode v hb hex
    simp [get_internal_results, hb, hex]
  · intro h decode a b c pd hs hd
    simp [get_attendance, hs, hd]

/-- C7 witness: the amended timeout behaviors at concrete requests. -/
theorem C7_amended_witness :
    (login [] decode48 .timeout 0).1.status = 408
  ∧ get_internal_results (some "Bearer h.p48.s") decode48 .timeout
      = { status := 504, success := none,
          error := some (.msg "Request timeout"), dataPresent := false }
  ∧ get_attendance (some "Bearer h.p48.s") decode48 .timeout
      = { status := 500, success := some false,
          error := some .serverErrorFmt, dataPresent := false } := by
  refine ⟨?_, ?_, ?_⟩
  · rw [(C7_amended.1 [] decode48 0).1]
  · exact C7_amended.2.1 "Bearer h.p48.s" decode48 (JsonValue.jnum 4821)
      (by decide) (by decide)
  · exact C7_amended.2.2 "Bearer h.p48.s" decode48 "h".data "p48".data "s".data
      [("sub", JsonValue.jnum 4821)] (by decide) (by decide)

/-- C9 counterexample: a present but malformed bearer token (one segment) at
`get_attendance` yields 400, not the claimed 401. -/
theorem C9_counterexample :
    (splitOnChar '.' (dropBearer "Bearer ab".data)).length = 1
  ∧ (get_attendance (some "Bearer ab") decode48 (.resp 200 (some .jnull))).status = 400
  ∧ (get_attendance (some "Bearer ab") decode48 (.resp 200 (some .jnull))).status ≠ 401 :=
  ⟨by decide, by decide, by decide⟩

/-- C9 amended: `get_internal_results` answers 401 for a header without the
`Bearer ` scheme and for any token the extractor rejects; `get_attendance`
answers 401 only for a missing header, and 400 when the present token has a
segment count other than 3 or fails to decode. -/
theorem C9_amended :
    (∀ (h : String) (decode : String → Option Payload) (up : UpstreamResult JsonValue),
        prefixCS "Bearer ".data h.data = false →
        (get_internal_results (some h) decode up).status = 401)
  ∧ (∀ (h : String) (decode : String → Option Payload) (up : UpstreamResult JsonValue)
       (e : ExtractError),
        extractSubject decode (bearerToken h) = .error e →
        (get_internal_results (some h) decode up).status = 401)
  ∧ (∀ (h : String) (decode : String → Option Payload) (up : UpstreamResult JsonValue),
        (splitOnChar '.' (dropBearer h.data)).length ≠ 3 →
        (get_attendance (some h) decode up).status = 400)
  ∧ (∀ (h : String) (decode : String → Option Payload) (up : UpstreamResult JsonValue)
       (a b c : List Char),
        splitOnChar '.' (dropBearer h.data) = [a, b, c] →
        decode (padB64 (String.mk b)) = none →
        (get_attendance (some h) decode up).status = 400)
  ∧ (∀ (decode : String → Option Payload) (up : UpstreamResult JsonValue),
        (get_attendance none decode up).status = 401) := by
  refine ⟨?_, ?_, ?_, ?_, ?_⟩
  · intro h decode up hb
    simp [get_internal_results, hb]
  · intro h decode up e hex
    by_cases hb : prefixCS "Bearer ".data h.data = true
    · cases e <;> simp [get_internal_results, hb, hex]
    · simp [get_internal_results, hb]
  · intro h decode up hlen
    rcases hp : splitOnChar '.' (dropBearer h.data) with _ | ⟨a, _ | ⟨b, _ | ⟨c, _ | ⟨d, rest⟩⟩⟩⟩
    · simp [get_attendance, hp]
    · simp [get_attendance, hp]
    · simp [get_attendance, hp]
    · simp [hp] at hlen
    · simp [get_attendance, hp]
  · intro h decode up a b c hs hd
    simp [get_attendance, hs, hd]
  · intro decode up
    rfl

/-- C9 witness: the amended status codes at concrete requests. -/
theorem C9_amended_witness :
    (get_internal_results (some "Token x") decode48 .timeout).status = 401
  ∧ (get_internal_results (some "Bearer ab") decode48 .timeout).status = 401
  ∧ (get_attendance (some "Bearer ab") decode48 .timeout).status = 400
  ∧ (get_attendance (some "Bearer h.bad.s") decode48 .timeout).status = 400
  ∧ (get_attendance none decode48 .timeout).status = 401 := by
  refine ⟨?_, ?_, ?_, ?_, ?_⟩
  · exact C9_amended.1 "Token x" decode48 .timeout (by decide)
  · exact C9_amended.2.1 "Bearer ab" decode48 .timeout .invalidTokenFormat (by decide)
  · exact C9_amended.2.2.1 "Bearer ab" decode48 .timeout (by decide)
  · exact C9_amended.2.2.2.1 "Bearer h.bad.s" decode48 .timeout
      "h".data "bad".data "s".data (by decide) (by decide)
  · exact C9_amended.2.2.2.2 decode48 .timeout

/-- C10: the upstream URL built by `get_student_profile_direct` depends only
on the caller-chosen path parameter; two requests for the same id with
different bearer tokens request the identical URL (the token is forwarded,
never decoded), so the relayed profile is the same. -/
theorem C10_profile_url_token_independent :
    ∀ (sid t1 t2 : String) (upstreamAt : String → UpstreamResult JsonValue),
      profileRequestedUrl (some t1) sid = some (profileUrl sid)
    ∧ profileRequestedUrl (some t2) sid = profileRequestedUrl (some t1) sid
    ∧ get_student_profile_direct (some t1) sid upstreamAt
        = get_student_profile_direct (some t2) sid upstreamAt := by
  intro sid t1 t2 up
  exact ⟨rfl, rfl, rfl⟩

/-- C2 counterexample: the record named `A` is returned for the query `a`
although no searched field contains `a` as a case-sensitive substring:
SQLite's `LIKE` compares ASCII characters case-insensitively. -/
theorem C2_counterexample :
    (search_students [rowA] "ip" "a" false []).1.students = [rowA]
  ∧ rowMatchesCS (pyStrip "a".data) rowA = false :=
  ⟨by decide, by decide⟩

/-- C2 amended: for a non-empty query without `LIKE` wildcard characters, a
record is returned by search iff it is cached and its `name`, `hallTicket` or
`rollNumber` contains the query as an ASCII-case-insensitive substring,
modulo the 20-record cap. -/
theorem C2_amended (db : List Row) (ip rawQ : String) (log : List LogEntry)
    (r : Row) (hq : pyStrip rawQ.data ≠ [])
    (hw : noWild (pyStrip rawQ.data) = true) :
    (r ∈ (search_students db ip rawQ false log).1.students →
       r ∈ db ∧ rowMatchesCI (pyStrip rawQ.data) r = true)
  ∧ (r ∈ db → rowMatchesCI (pyStrip rawQ.data) r = true →
       (db.filter (rowMatches (pyStrip rawQ.data))).length ≤ 20 →
       r ∈ (search_students db ip rawQ false log).1.students) := by
  rw [search_students_students db ip rawQ log hq]
  constructor
  · intro hmem
    have h := mem_searchRecords db (pyStrip rawQ.data) r hmem
    exact ⟨h.1, by rw [← rowMatches_eq_CI _ hw]; exact h.2⟩
  · intro hmem hci hlen
    exact searchRecords_mem db (pyStrip rawQ.data) r hmem
      (by rw [rowMatches_eq_CI _ hw]; exact hci) hlen

/-- C2 witness: the amended equivalence at a concrete cache and query. -/
theorem C2_amended_witness :
    rowA ∈ [rowA] ∧ rowMatchesCI (pyStrip "a".data) rowA = true :=
  (C2_amended [rowA] "ip" "a" [] rowA (by decide) (by decide)).1 (by decide)

/-- C3: search never returns more than 20 records; a returned record whose
`hallTicket` equals the (stripped) query exactly precedes every returned
record without an exact `hallTicket` match; and records of equal ORDER BY
rank appear in ascending `name` order (SQLite `BINARY` collation). -/
theorem C3_search_cap_and_order (db : List Row) (ip rawQ : String)
    (log : List LogEntry) (hq : pyStrip rawQ.data ≠ []) :
    (search_students db ip rawQ false log).1.students.length ≤ 20
  ∧ (search_students db ip rawQ false log).1.students.Pairwise
      (fun a b => b.hall_ticket.data = pyStrip rawQ.data →
        a.hall_ticket.data = pyStrip rawQ.data)
  ∧ (search_students db ip rawQ false log).1.students.Pairwise
      (fun a b => searchRank (pyStrip rawQ.data) a = searchRank (pyStrip rawQ.data) b →
        charListLe a.name.data b.name.data = true) := by
  rw [search_students_students db ip rawQ log hq]
  set q := pyStrip rawQ.data with hqdef
  have hsorted := sorted_searchRecords db q
  refine ⟨length_searchRecords_le db q, ?_, ?_⟩
  · refine hsorted.imp ?_
    intro a b hab hbq
    have hle : searchLe q a b = true := hab
    simp only [searchLe, Bool.or_eq_true, Bool.and_eq_true,
      decide_eq_true_eq, beq_iff_eq] at hle
    have hbr : searchRank q b = 1 := (searchRank_eq_one_iff q b).mpr hbq
    have har : searchRank q a = 1 := by
      rcases hle with hlt | ⟨heq, _⟩
      · have := searchRank_pos q a
        omega
      · omega
    exact (searchRank_eq_one_iff q a).mp har
  · refine hsorted.imp ?_
    intro a b hab heq
    have hle : searchLe q a b = true := hab
    simp only [searchLe, Bool.or_eq_true, Bool.and_eq_true,
      decide_eq_true_eq, beq_iff_eq] at hle
    rcases hle with hlt | ⟨_, hname⟩
    · omega
    · exact hname

/-- C3 witness: cap and ordering at a concrete cache and query. -/
theorem C3_witness :
    (search_students [rowA] "ip" "A" false []).1.students.length ≤ 20
  ∧ (search_students [rowA] "ip" "A" false []).1.students.Pairwise
      (fun a b => b.hall_ticket.data = pyStrip "A".data →
        a.hall_ticket.data = pyStrip "A".data)
  ∧ (search_students [rowA] "ip" "A" false []).1.students.Pairwise
      (fun a b => searchRank (pyStrip "A".data) a = searchRank (pyStrip "A".data) b →
        charListLe a.name.data b.name.data = true) :=
  C3_search_cap_and_order [rowA] "ip" "A" [] (by decide)

/-- C4 counterexample: with a matching record cached, a failing history
INSERT makes `search_students` answer the 500 `Search failed` body with no
records — the one `try` block catches the logging failure too, so the
success response is not returned. -/
theorem C4_counterexample :
    searchRecords [rowA] (pyStrip "A".data) = [rowA]
  ∧ (search_students [rowA] "ip" "A" true []).1
      = { status := 500, success := false, students := [], total_results := 0,
          error := some "Search failed" }
  ∧ (search_students [rowA] "ip" "A" true []).1.success ≠ true :=
  ⟨by decide, by decide, by decide⟩

/-- C4 amended: when the history INSERT raises, the search request fails with
the 500 `Search failed` body, returns no records, and appends nothing; only
when the INSERT succeeds is the success response with the matched records
returned, with exactly one history row appended. -/
theorem C4_amended (db : List Row) (ip rawQ : String) (log : List LogEntry)
    (hq : pyStrip rawQ.data ≠ []) :
    (search_students db ip rawQ true log).1
      = { status := 500, success := false, students := [], total_results := 0,
          error := some "Search failed" }
  ∧ (search_students db ip rawQ true log).2 = log
  ∧ (search_students db ip rawQ false log).1.status = 200
  ∧ (search_students db ip rawQ false log).1.success = true
  ∧ (search_students db ip rawQ false log).1.students
      = searchRecords db (pyStrip rawQ.data)
  ∧ (search_students db ip rawQ false log).2.length = log.length + 1 := by
  unfold search_students
  simp [isEmpty_false_of_ne_nil hq]

/-- C4 witness: the amended behavior at a concrete cache and query. -/
theorem C4_amended_witness :
    (search_students [rowA] "ip" "A" true []).1
      = { status := 500, success := false, students := [], total_results := 0,
          error := some "Search failed" }
  ∧ (search_students [rowA] "ip" "A" true []).2 = []
  ∧ (search_students [rowA] "ip" "A" false []).1.status = 200
  ∧ (search_students [rowA] "ip" "A" false []).1.success = true
  ∧ (search_students [rowA] "ip" "A" false []).1.students
      = searchRecords [rowA] (pyStrip "A".data)
  ∧ (search_students [rowA] "ip" "A" false []).2.length
      = ([] : List LogEntry).length + 1 :=
  C4_amended [rowA] "ip" "A" [] (by decide)

/-- C5 counterexample: upserting twice with a payload carrying no `student`
object leaves zero records for that `upstreamId`, not one: both the INSERT
and the UPDATE violate the schema's `NOT NULL` on `name`/`hall_ticket`, and
the exception is swallowed. -/
theorem C5_counterexample :
    store_attempt [] kdNoStudent (JsonValue.jnum 1) 0 = none
  ∧ ((store_student_data (store_student_data [] kdNoStudent (JsonValue.jnum 1) 0)
        kdNoStudent (JsonValue.jnum 1) 1).filter
          (fun r => r.kmit_id == JsonValue.jnum 1)).length = 0 :=
  ⟨by decide, by decide⟩

/-- C5 amended: when both payloads carry a `student` object with `name` and
`htno` present, upserting the same `upstreamId` twice from an empty cache
leaves exactly the one record mapped from the second payload, with
`created_at` from the first write and `last_updated` refreshed to the second
time; and every upsert preserves the at-most-one-record-per-`upstreamId`
invariant. -/
theorem C5_amended :
    (∀ (d1 d2 : KmitData) (st1 st2 : ProviderStudent) (k : JsonValue)
       (t1 t2 : Nat) (nm1 ht1 nm2 ht2 : String),
        d1.student = some st1 → d2.student = some st2 →
        st1.name = some nm1 → st1.htno = some ht1 →
        st2.name = some nm2 → st2.htno = some ht2 →
        t1 ≤ t2 →
        store_student_data (store_student_data [] d1 k t1) d2 k t2
          = [mappedRow st2 k nm2 ht2 t2 t1]
        ∧ (mappedRow st2 k nm2 ht2 t2 t1).last_updated = t2)
  ∧ (∀ (db : List Row) (kd : KmitData) (k : JsonValue) (t : Nat),
        atMostOnePerId db → atMostOnePerId (store_student_data db kd k t)) := by
  refine ⟨?_, fun db kd k t h => store_preserves_atMostOne db kd k t h⟩
  intro d1 d2 st1 st2 k t1 t2 nm1 ht1 nm2 ht2 h1 h2 h3 h4 h5 h6 hle
  constructor
  · have hstep1 : store_student_data [] d1 k t1 = [mappedRow st1 k nm1 ht1 t1 t1] := by
      simp [store_student_data, store_attempt, h1, h3, h4]
    rw [hstep1]
    simp [store_student_data, store_attempt, h2, h5, h6, mappedRow]
  · rfl

/-- C5 witness: the two-upsert shape at concrete payloads and times. -/
theorem C5_amended_witness :
    store_student_data (store_student_data [] kdGood (JsonValue.jnum 4821) 0)
        kdGood (JsonValue.jnum 4821) 1
      = [mappedRow studentNmHt (JsonValue.jnum 4821) "A" "HT1" 1 0]
  ∧ (mappedRow studentNmHt (JsonValue.jnum 4821) "A" "HT1" 1 0).last_updated = 1 :=
  C5_amended.1 kdGood kdGood studentNmHt studentNmHt (JsonValue.jnum 4821) 0 1
    "A" "HT1" "A" "HT1" rfl rfl rfl rfl rfl rfl (by omega)

/-- C6 counterexample: the upstream answers 201 with a body whose returned
token's payload carries `sub = 4821`, yet the cache stays empty because the
body lacks an `Error` key (`kmit_data.get('Error') == False` fails); the
response still has `success = true`. -/
theorem C6_counterexample :
    (login [] decode48 (.resp 201 (some kdNoErrorField)) 5).1.success = some true
  ∧ kdNoErrorField.access_token = some "h.p48.s"
  ∧ splitOnChar '.' "h.p48.s".data = ["h".data, "p48".data, "s".data]
  ∧ decode48 (padB64 (String.mk "p48".data)) = some [("sub", JsonValue.jnum 4821)]
  ∧ pyGet [("sub", JsonValue.jnum 4821)] "sub" = some (JsonValue.jnum 4821)
  ∧ (login [] decode48 (.resp 201 (some kdNoErrorField)) 5).2 = [] :=
  ⟨by decide, by decide, by decide, by decide, by decide, by decide⟩

/-- C6 amended: on a 201 with a JSON body whose `Error` compares equal to
`False`, whose token decodes to a truthy numeric `sub = N`, and whose
`student` object carries `name` and `htno`, the login response has
`success = true` and the cache (here: starting empty) gains the record with
`upstreamId = N`. -/
theorem C6_amended (decode : String → Option Payload) (kd : KmitData)
    (st : ProviderStudent) (tok : String) (ev : JsonValue) (a b c : List Char)
    (pd : Payload) (N : Int) (now : Nat) (nm ht : String)
    (hE : kd.errorField = some ev) (hEf : pyEqFalse ev = true)
    (hT : kd.access_token = some tok)
    (hsplit : splitOnChar '.' tok.data = [a, b, c])
    (hdec : decode (padB64 (String.mk b)) = some pd)
    (hsub : pyGet pd "sub" = some (.jnum N)) (hN : N ≠ 0)
    (hst : kd.student = some st) (hnm : st.name = some nm)
    (hht : st.htno = some ht) :
    (login [] decode (.resp 201 (some kd)) now).1.status = 200
  ∧ (login [] decode (.resp 201 (some kd)) now).1.success = some true
  ∧ (login [] decode (.resp 201 (some kd)) now).2
      = [mappedRow st (.jnum N) nm ht now now]
  ∧ ∃ r ∈ (login [] decode (.resp 201 (some kd)) now).2,
      r.kmit_id = JsonValue.jnum N := by
  have hex : extractSubject decode tok = .ok (.jnum N) := by
    simp [extractSubject, hsplit, hdec, hsub, JsonValue.truthy, hN]
  have hdb : (login [] decode (.resp 201 (some kd)) now).2
      = [mappedRow st (.jnum N) nm ht now now] := by
    simp [login, hE, hT, hEf, hex, store_student_data, store_attempt, hst, hnm, hht]
  refine ⟨rfl, rfl, hdb, ?_⟩
  rw [hdb]
  exact ⟨mappedRow st (.jnum N) nm ht now now, by simp, rfl⟩

/-- C6 witness: the spec's scenario with `sub = 4821` at a concrete body. -/
theorem C6_amended_witness :
    (login [] decode48 (.resp 201 (some kdGood)) 5).1.status = 200
  ∧ (login [] decode48 (.resp 201 (some kdGood)) 5).1.success = some true
  ∧ (login [] decode48 (.resp 201 (some kdGood)) 5).2
      = [mappedRow studentNmHt (.jnum 4821) "A" "HT1" 5 5]
  ∧ ∃ r ∈ (login [] decode48 (.resp 201 (some kdGood)) 5).2,
      r.kmit_id = JsonValue.jnum 4821 :=
  C6_amended decode48 kdGood studentNmHt "h.p48.s" (.jbool false)
    "h".data "p48".data "s".data [("sub", JsonValue.jnum 4821)] 4821 5 "A" "HT1"
    rfl (by decide) rfl (by decide) (by decide) (by decide) (by decide) rfl rfl rfl

/-- C8 counterexample: a payload with no `student` object (so `name` and
`hallTicket` among the absent fields) makes the upsert fail — the INSERT
violates the schema's `NOT NULL` constraints — and nothing is persisted. -/
theorem C8_counterexample :
    store_attempt [] kdNoStudent (JsonValue.jnum 4821) 5 = none
  ∧ store_student_data [] kdNoStudent (JsonValue.jnum 4821) 5 = [] :=
  ⟨by decide, by decide⟩

/-- C8 amended: an upsert succeeds whenever the mapped `name` and `htno` are
present, whatever else is absent, storing an explicit no-value for every
missing field; each absent nested object (`branch`, `course`, `section`,
`regulation`) maps to a no-value column; a payload whose `name` or `htno` is
absent makes the persistence attempt fail. -/
theorem C8_amended :
    (∀ (kd : KmitData) (st : ProviderStudent) (nm ht : String)
       (k : JsonValue) (now : Nat),
        kd.student = some st → st.name = some nm → st.htno = some ht →
        store_attempt [] kd k now = some [mappedRow st k nm ht now now])
  ∧ (∀ (st : ProviderStudent) (nm ht : String) (k : JsonValue) (now : Nat),
        st.branch = none → st.course = none → st.«section» = none →
        st.regulation = none →
        (mappedRow st k nm ht now now).branch = none
      ∧ (mappedRow st k nm ht now now).branch_code = none
      ∧ (mappedRow st k nm ht now now).course = none
      ∧ (mappedRow st k nm ht now now).«section» = none
      ∧ (mappedRow st k nm ht now now).regulation = none)
  ∧ (∀ (kd : KmitData) (st : ProviderStudent) (k : JsonValue) (now : Nat),
        kd.student = some st → (st.name = none ∨ st.htno = none) →
        store_attempt [] kd k now = none) := by
  refine ⟨?_, ?_, ?_⟩
  · intro kd st nm ht k now hst hnm hht
    simp [store_attempt, hst, hnm, hht]
  · intro st nm ht k now hb hc hs hr
    simp [mappedRow, hb, hc, hs, hr]
  · intro kd st k now hst hmiss
    rcases hmiss with hmiss | hmiss
    · simp [store_attempt, hst, hmiss]
    · cases hn : st.name <;> simp [store_attempt, hst, hn, hmiss]

/-- C8 witness: a minimal payload (only `name` and `htno`) persists with
no-values everywhere else; the empty `student` object fails to persist. -/
theorem C8_amended_witness :
    store_attempt [] kdGood (JsonValue.jnum 4821) 5
      = some [mappedRow studentNmHt (JsonValue.jnum 4821) "A" "HT1" 5 5]
  ∧ ((mappedRow studentNmHt (JsonValue.jnum 4821) "A" "HT1" 5 5).branch = none
     ∧ (mappedRow studentNmHt (JsonValue.jnum 4821) "A" "HT1" 5 5).branch_code = none
     ∧ (mappedRow studentNmHt (JsonValue.jnum 4821) "A" "HT1" 5 5).course = none
     ∧ (mappedRow studentNmHt (JsonValue.jnum 4821) "A" "HT1" 5 5).«section» = none
     ∧ (mappedRow studentNmHt (JsonValue.jnum 4821) "A" "HT1" 5 5).regulation = none)
  ∧ store_attempt [] kdEmptyStudent (JsonValue.jnum 4821) 5 = none :=
  ⟨C8_amended.1 kdGood studentNmHt "A" "HT1" (JsonValue.jnum 4821) 5 rfl rfl rfl,
   C8_amended.2.1 studentNmHt "A" "HT1" (JsonValue.jnum 4821) 5 rfl rfl rfl rfl,
   C8_amended.2.2 kdEmptyStudent emptyStudent (JsonValue.jnum 4821) 5 rfl (Or.inl rfl)⟩
